import Mathlib

/-!
Shallow embedding of `versionfs` (src/src/main.rs): a FUSE filesystem that
exposes one target file backed by numbered snapshot files.  Byte strings are
`List Nat` (each element an octet), the snapshot-store directory is a function
from paths to optional file contents, and every `unwrap` panic of the Rust
code is an explicit `Reply.panic` outcome.
-/

namespace VFS

/-- Outcome of a FUSE callback: a successful reply carrying `α`, an errno
error reply, or a Rust panic (`unwrap` on `None`/`Err`, slice out of range). -/
inductive Reply (α : Type) where
  | ok (a : α)
  | error (code : Nat)
  | panic
deriving DecidableEq

/-- libc errno codes used by the program. -/
def ENOENT : Nat := 2

def EEXIST : Nat := 17

def ENOSYS : Nat := 38

/-- Linux open(2) flag bits used by the program. -/
def O_WRONLY : Nat := 1

def O_RDWR : Nat := 2

def O_CREAT : Nat := 64

def O_TRUNC : Nat := 512

/-- File kinds that appear in the program (`fuser::FileType`). -/
inductive FileKind where
  | directory
  | regularFile
deriving DecidableEq

/-- Embedding of `fuser::FileAttr`; timestamps are seconds since the epoch
(the program only ever uses `UNIX_EPOCH`, i.e. 0). -/
structure FileAttr where
  ino : Nat
  size : Nat
  blocks : Nat
  atime : Nat
  mtime : Nat
  ctime : Nat
  crtime : Nat
  kind : FileKind
  perm : Nat
  nlink : Nat
  uid : Nat
  gid : Nat
  rdev : Nat
  flags : Nat
  blksize : Nat
deriving DecidableEq

/-- The static attribute record of the virtual root directory (`PARENT_ATTR`). -/
def PARENT_ATTR : FileAttr :=
  { ino := 1, size := 0, blocks := 0, atime := 0, mtime := 0, ctime := 0,
    crtime := 0, kind := .directory, perm := 0o755, nlink := 2, uid := 501,
    gid := 20, rdev := 0, flags := 0, blksize := 512 }

/-- A path in the snapshot store: the store directory joined with a file
name (`PathBuf::join` of `target_dir` and the formatted snapshot name). -/
structure FsPath where
  dir : List Nat
  file : List Nat
deriving DecidableEq

/-- Whether one byte is a UTF-8 continuation byte (`0x80..=0xBF`). -/
def isCont (b : Nat) : Bool := 0x80 ≤ b && b ≤ 0xBF

/-- Strict UTF-8 validity of a byte string, as Rust's `str::from_utf8` /
`OsStr::to_str` check it (Unicode table 3-7: no overlong forms, no
surrogates, no code points above U+10FFFF). -/
def utf8Valid : List Nat → Bool
  | [] => true
  | b :: rest =>
    if b ≤ 0x7F then utf8Valid rest
    else if 0xC2 ≤ b && b ≤ 0xDF then
      match rest with
      | b1 :: rest2 => isCont b1 && utf8Valid rest2
      | [] => false
    else if b = 0xE0 then
      match rest with
      | b1 :: b2 :: rest2 => (0xA0 ≤ b1 && b1 ≤ 0xBF) && isCont b2 && utf8Valid rest2
      | _ => false
    else if (0xE1 ≤ b && b ≤ 0xEC) || b = 0xEE || b = 0xEF then
      match rest with
      | b1 :: b2 :: rest2 => isCont b1 && isCont b2 && utf8Valid rest2
      | _ => false
    else if b = 0xED then
      match rest with
      | b1 :: b2 :: rest2 => (0x80 ≤ b1 && b1 ≤ 0x9F) && isCont b2 && utf8Valid rest2
      | _ => false
    else if b = 0xF0 then
      match rest with
      | b1 :: b2 :: b3 :: rest2 =>
        (0x90 ≤ b1 && b1 ≤ 0xBF) && isCont b2 && isCont b3 && utf8Valid rest2
      | _ => false
    else if 0xF1 ≤ b && b ≤ 0xF3 then
      match rest with
      | b1 :: b2 :: b3 :: rest2 =>
        isCont b1 && isCont b2 && isCont b3 && utf8Valid rest2
      | _ => false
    else if b = 0xF4 then
      match rest with
      | b1 :: b2 :: b3 :: rest2 =>
        (0x80 ≤ b1 && b1 ≤ 0x8F) && isCont b2 && isCont b3 && utf8Valid rest2
      | _ => false
    else false

/-- Decimal ASCII bytes of a natural number, as `format!("{}", n)` prints it. -/
def natBytes (n : Nat) : List Nat := (Nat.toDigits 10 n).map Char.toNat

/-- The program state: the fields `target`, `target_dir`, `version` mirror
`struct VersionFS`; `disk` models the contents of the snapshot-store
directory (file name resolved path to file bytes, `none` when the file is
absent or its metadata unreadable). -/
structure VersionFS where
  target : List Nat
  target_dir : List Nat
  version : Nat
  disk : FsPath → Option (List Nat)

/-- Effect of creating or overwriting one snapshot file on the store. -/
def writeDisk (s : VersionFS) (p : FsPath) (data : List Nat) : VersionFS :=
  { s with disk := fun q => if q = p then some data else s.disk q }

/-- Embedding of `VersionFS::path_for_version`:
`self.target_dir.join(format!("{}.{}", version, self.target.to_str().unwrap()))`.
The result is `none` exactly when `to_str()` returns `None` (the display name
is not valid UTF-8), where the Rust code panics on `unwrap`. -/
def path_for_version (s : VersionFS) (version : Nat) : Option FsPath :=
  if utf8Valid s.target then
    some ⟨s.target_dir, natBytes version ++ [46] ++ s.target⟩
  else none

/-- ResolvePath as the spec words it (§4.1): a total function of the store
directory, the display name and the version; the deterministic file name is
"{version}.{target-display-name}" joined with the store directory. -/
def resolvePathSpec (dir name : List Nat) (version : Nat) : FsPath :=
  ⟨dir, natBytes version ++ [46] ++ name⟩

/-- The Target's attribute record for a snapshot of `size` bytes, exactly the
literal built in `VersionFS::target_attr`. -/
def targetFileAttr (size : Nat) : FileAttr :=
  { ino := 2, size := size, blocks := 1, atime := 0, mtime := 0, ctime := 0,
    crtime := 0, kind := .regularFile, perm := 0o777, nlink := 1, uid := 501,
    gid := 20, rdev := 0, flags := 0, blksize := 512 }

/-- Embedding of `VersionFS::target_attr`: for `version > 0`, read the
snapshot's metadata by path and build the record from its size; `ok none`
when the version is 0 or the metadata read fails; `panic` when
`path_for_version` panics. -/
def target_attr (s : VersionFS) (version : Nat) : Reply (Option FileAttr) :=
  if version > 0 then
    match path_for_version s version with
    | none => .panic
    | some p =>
      match s.disk p with
      | some data => .ok (some (targetFileAttr data.length))
      | none => .ok none
  else .ok none

/-- Embedding of `VersionFS::current_target_attr`. -/
def current_target_attr (s : VersionFS) : Reply (Option FileAttr) :=
  target_attr s s.version

/-- Result of `.unwrap()` applied to a computed optional attribute record:
an absent record is a panic. -/
def unwrapAttr : Reply (Option FileAttr) → Reply FileAttr
  | .ok (some a) => .ok a
  | .ok none => .panic
  | .error e => .error e
  | .panic => .panic

/-- Embedding of `VersionFS::lookup`.  On a matching (parent, name) the code
replies with `target_attr(version).or(target_attr(version - 1)).unwrap()`;
`version - 1` is the saturating model of the usize subtraction, which at
`version = 0` panics either way (arithmetic overflow in debug, an absent
record unwrapped in release). -/
def lookup (s : VersionFS) (parent : Nat) (name : List Nat) : Reply FileAttr :=
  if parent = 1 ∧ name = s.target then
    match target_attr s s.version with
    | .ok (some a) => .ok a
    | .ok none => unwrapAttr (target_attr s (s.version - 1))
    | .error e => .error e
    | .panic => .panic
  else .error ENOENT

/-- Embedding of `VersionFS::getattr`. -/
def getattr (s : VersionFS) (ino : Nat) : Reply FileAttr :=
  if ino = 1 then .ok PARENT_ATTR
  else if ino = 2 ∧ s.version > 0 then unwrapAttr (current_target_attr s)
  else .error ENOENT

/-- Embedding of `VersionFS::mknod`; the mode, umask and rdev arguments are
ignored by the code. -/
def mknod (s : VersionFS) (parent : Nat) (name : List Nat)
    (_mode _umask _rdev : Nat) : Reply Unit :=
  if parent = 1 ∧ name = s.target then .error EEXIST else .error ENOSYS

/-- Embedding of `VersionFS::read`.  The code re-reads the whole current
snapshot by path (`fs::read(path).unwrap()`) and slices
`data[offset .. min(len, offset + size)]`; the slice panics when the start
index exceeds the end index, i.e. when `offset > len`. -/
def read (s : VersionFS) (ino _fh offset size : Nat) : Reply (List Nat) :=
  if ino = 2 ∧ s.version > 0 then
    match path_for_version s s.version with
    | none => .panic
    | some p =>
      match s.disk p with
      | none => .panic
      | some data =>
        let start := offset
        let stop := min data.length (start + size)
        if start ≤ stop then .ok ((data.take stop).drop start) else .panic
  else .error ENOENT

/-- Whether a byte string contains a NUL octet (`CString::new` fails on it). -/
def hasNulByte (l : List Nat) : Bool := l.contains 0

/-- Model of the `libc::open` call at the end of `VersionFS::open`, as POSIX
open(2) behaves on the flag subset the program passes through: an existing
file is truncated when `O_TRUNC` is set; a missing file is created empty when
`O_CREAT` is set and yields errno `ENOENT` otherwise.  Before the call the
code runs `path.to_str().unwrap()` (panics when the store directory is not
valid UTF-8) and `CString::new(..).unwrap()` (panics on an interior NUL). -/
def osOpen (s : VersionFS) (flags : Nat) : Reply Unit × VersionFS :=
  match path_for_version s s.version with
  | none => (.panic, s)
  | some p =>
    if !utf8Valid s.target_dir then (.panic, s)
    else if hasNulByte s.target_dir || hasNulByte p.file then (.panic, s)
    else
      match s.disk p with
      | some _ =>
        if Nat.land flags O_TRUNC ≠ 0 then (.ok (), writeDisk s p [])
        else (.ok (), s)
      | none =>
        if Nat.land flags O_CREAT ≠ 0 then (.ok (), writeDisk s p [])
        else (.error ENOENT, s)

/-- Write intent of an open call, as the code tests it:
`flags & O_WRONLY != 0 || flags & O_RDWR != 0 || flags & O_CREAT != 0`. -/
def writeIntent (flags : Nat) : Bool :=
  Nat.land flags O_WRONLY != 0 || Nat.land flags O_RDWR != 0 ||
    Nat.land flags O_CREAT != 0

/-- Embedding of `VersionFS::open`.  On the Target with write intent the
version counter is incremented first; then the new snapshot is created (a
byte copy of the previous snapshot unless this is version 1 or `O_TRUNC` is
set, an empty file otherwise); finally the snapshot path of the now-current
version is opened natively.  `fs::copy(..).unwrap()` panics when the previous
snapshot is absent.  Any other inode replies errno `ENOSYS`. -/
def openOp (s : VersionFS) (ino : Nat) (flags : Nat) : Reply Unit × VersionFS :=
  if ino = 2 then
    if writeIntent flags then
      let s1 : VersionFS := { s with version := s.version + 1 }
      match path_for_version s1 s1.version with
      | none => (.panic, s1)
      | some newpath =>
        if s1.version > 1 ∧ Nat.land flags O_TRUNC = 0 then
          match path_for_version s1 (s1.version - 1) with
          | none => (.panic, s1)
          | some oldpath =>
            match s1.disk oldpath with
            | none => (.panic, s1)
            | some data => osOpen (writeDisk s1 newpath data) flags
          else
            osOpen (writeDisk s1 newpath []) flags
    else
      osOpen s flags
  else (.error ENOSYS, s)

/-- Embedding of `VersionFS::setattr`: every argument is ignored, no state is
touched, and the reply is `current_target_attr().unwrap()`. -/
def setattr (s : VersionFS) (_ino : Nat)
    (_mode _uid _gid _size _atime _mtime _ctime _fh _crtime _chgtime
      _bkuptime _flags : Option Nat) : Reply FileAttr × VersionFS :=
  (unwrapAttr (current_target_attr s), s)

/-- Embedding of `Filesystem::init`: set the version counter to 1 and create
an empty snapshot for version 1. -/
def initOp (s : VersionFS) : Reply Unit × VersionFS :=
  let s1 : VersionFS := { s with version := 1 }
  match path_for_version s1 1 with
  | none => (.panic, s1)
  | some p => (.ok (), writeDisk s1 p [])

/-! Concrete fixtures: the display name is "t" (byte 116), the store
directory "d" (byte 100), so version v's snapshot path is "d"/"v.t". -/

/-- The snapshot path of version 1 for the fixtures: "d"/"1.t". -/
def path1 : FsPath := ⟨[100], [49, 46, 116]⟩

/-- The snapshot path of version 2 for the fixtures: "d"/"2.t". -/
def path2 : FsPath := ⟨[100], [50, 46, 116]⟩

/-- A state at version 1 whose snapshot holds "hi" (bytes 104, 105). -/
def exFS : VersionFS :=
  { target := [116], target_dir := [100], version := 1,
    disk := fun p => if p = path1 then some [104, 105] else none }

/-- A state at version 1 whose snapshot is empty. -/
def emptyFS : VersionFS :=
  { target := [116], target_dir := [100], version := 1,
    disk := fun p => if p = path1 then some [] else none }

/-- A state at version 2 whose version-2 snapshot is absent while the
version-1 snapshot holds "hi": the lookup-fallback situation. -/
def fallbackFS : VersionFS :=
  { target := [116], target_dir := [100], version := 2,
    disk := fun p => if p = path1 then some [104, 105] else none }

/-- A state whose display name is the single byte 0xFF, which is not valid
UTF-8. -/
def badFS : VersionFS :=
  { target := [255], target_dir := [100], version := 1, disk := fun _ => none }

/-! Helper lemmas about the embedding, shared by the claim proofs. -/

theorem path_for_version_set_version (s : VersionFS) (n v : Nat) :
    path_for_version { s with version := n } v = path_for_version s v := rfl

theorem path_for_version_writeDisk (s : VersionFS) (p : FsPath) (d : List Nat)
    (v : Nat) : path_for_version (writeDisk s p d) v = path_for_version s v := rfl

theorem writeDisk_version (s : VersionFS) (p : FsPath) (d : List Nat) :
    (writeDisk s p d).version = s.version := rfl

theorem writeDisk_disk_self (s : VersionFS) (p : FsPath) (d : List Nat) :
    (writeDisk s p d).disk p = some d := by simp [writeDisk]

theorem osOpen_version (s : VersionFS) (flags : Nat) :
    ((osOpen s flags).2).version = s.version := by
  unfold osOpen
  split
  · rfl
  · split
    · rfl
    · split
      · rfl
      · split
        · split
          · rfl
          · rfl
        · split
          · rfl
          · rfl

theorem osOpen_no_trunc (s : VersionFS) (flags : Nat) (p : FsPath) (d : List Nat)
    (hp : path_for_version s s.version = some p) (hd : s.disk p = some d)
    (ht : Nat.land flags O_TRUNC = 0) :
    (osOpen s flags).2 = s := by
  unfold osOpen
  rw [hp]
  by_cases h1 : utf8Valid s.target_dir
  · by_cases h2 : hasNulByte s.target_dir || hasNulByte p.file
    · simp [h1, h2]
    · simp [h1, h2, hd, ht]
  · simp [h1]

theorem osOpen_disk_empty (s : VersionFS) (flags : Nat) (p : FsPath)
    (hp : path_for_version s s.version = some p) (hd : s.disk p = some []) :
    ((osOpen s flags).2).disk p = some [] := by
  unfold osOpen
  rw [hp]
  by_cases h1 : utf8Valid s.target_dir
  · by_cases h2 : hasNulByte s.target_dir || hasNulByte p.file
    · simp [h1, h2, hd]
    · by_cases ht : Nat.land flags O_TRUNC = 0
      · simp [h1, h2, hd, ht]
      · simp [h1, h2, hd, ht, writeDisk]
  · simp [h1, hd]

theorem openOp_other (s : VersionFS) (ino flags : Nat) (h : ino ≠ 2) :
    openOp s ino flags = (.error ENOSYS, s) := by
  simp [openOp, h]

/-! Claim theorems. -/

/-- C5: a Lookup whose parent is the virtual root (inode 1) and whose name is
the Target's display name replies with the current version's attribute
record, or, when the current version's snapshot is absent, with the record of
version − 1; every other Lookup replies NotFound (`ENOENT`). -/
theorem C5_lookup (s : VersionFS) (parent : Nat) (name : List Nat) :
    (parent = 1 → name = s.target →
      (∀ a, target_attr s s.version = .ok (some a) →
        lookup s parent name = .ok a) ∧
      (∀ a, target_attr s s.version = .ok none →
        target_attr s (s.version - 1) = .ok (some a) →
        lookup s parent name = .ok a)) ∧
    (¬(parent = 1 ∧ name = s.target) → lookup s parent name = .error ENOENT) := by
  constructor
  · intro h1 h2
    constructor
    · intro a ha
      simp [lookup, h1, h2, ha]
    · intro a ha hb
      simp [lookup, h1, h2, ha, hb, unwrapAttr]
  · intro h
    simp only [lookup, if_neg h]

/-- C5 (witness): at `fallbackFS` (version 2, version-2 snapshot absent,
version-1 snapshot of 2 bytes) the fallback branch replies the version-1
record. -/
theorem C5_lookup_witness :
    lookup fallbackFS 1 [116] = .ok (targetFileAttr 2) :=
  ((C5_lookup fallbackFS 1 [116]).1 rfl (by decide)).2 (targetFileAttr 2)
    (by decide) (by decide)

/-- C6: GetAttributes replies the fixed static root record for inode 1; for
inode 2 with version > 0 and a readable current snapshot it replies the
Target record whose size is that snapshot's byte length (the record is
`targetFileAttr`, constant in every other field); any other inode, and
inode 2 with version 0, reply NotFound (`ENOENT`). -/
theorem C6_getattr (s : VersionFS) (ino : Nat) :
    (getattr s 1 = .ok PARENT_ATTR) ∧
    (0 < s.version → ∀ p data, path_for_version s s.version = some p →
      s.disk p = some data →
      getattr s 2 = .ok (targetFileAttr data.length) ∧
        (targetFileAttr data.length).size = data.length) ∧
    (ino ≠ 1 → ino ≠ 2 → getattr s ino = .error ENOENT) ∧
    (s.version = 0 → getattr s 2 = .error ENOENT) := by
  refine ⟨by simp [getattr], ?_, ?_, ?_⟩
  · intro hv p data hp hd
    refine ⟨?_, rfl⟩
    simp [getattr, current_target_attr, target_attr, hv, hp, hd, unwrapAttr]
  · intro h1 h2
    simp [getattr, h1, h2]
  · intro hv
    simp [getattr, hv]

/-- C6 (witness): at `exFS` (version 1, 2-byte snapshot), inode 2 replies the
Target record of size 2; inode 1 the root record; inode 3 `ENOENT`. -/
theorem C6_getattr_witness :
    getattr exFS 2 = .ok (targetFileAttr 2) ∧
      getattr exFS 1 = .ok PARENT_ATTR ∧ getattr exFS 3 = .error ENOENT :=
  ⟨((C6_getattr exFS 2).2.1 (by decide) path1 [104, 105] (by decide)
      (by decide)).1,
   (C6_getattr exFS 1).1,
   (C6_getattr exFS 3).2.2.1 (by decide) (by decide)⟩

/-- C10: with version > 0, GetAttributes and SetAttributes resolve the
Target's record from the current version's snapshot only: they reply
successfully exactly when that snapshot is readable, and when it is not they
reach the `unwrap` panic — not NotFound and not the previous version's
record — while Lookup in the same state falls back to version − 1. -/
theorem C10_no_fallback (s : VersionFS) (p : FsPath)
    (hv : 0 < s.version) (hp : path_for_version s s.version = some p) :
    ((∃ a, getattr s 2 = .ok a) ↔ ∃ data, s.disk p = some data) ∧
    ((∃ a, (setattr s 2 none none none none none none none none none none
        none none).1 = .ok a) ↔ ∃ data, s.disk p = some data) ∧
    (s.disk p = none →
      getattr s 2 = .panic ∧
      (setattr s 2 none none none none none none none none none none none
        none).1 = .panic) ∧
    (1 < s.version → s.disk p = none →
      ∀ q data, path_for_version s (s.version - 1) = some q →
        s.disk q = some data →
        lookup s 1 s.target = .ok (targetFileAttr data.length)) := by
  cases hd : s.disk p with
  | some data =>
    have hok : getattr s 2 = .ok (targetFileAttr data.length) := by
      simp [getattr, current_target_attr, target_attr, hv, hp, hd, unwrapAttr]
    have hsok : (setattr s 2 none none none none none none none none none none
        none none).1 = .ok (targetFileAttr data.length) := by
      simp [setattr, current_target_attr, target_attr, hv, hp, hd, unwrapAttr]
    refine ⟨?_, ?_, ?_, ?_⟩
    · simp [hok]
    · simp [hsok]
    · intro h
      simp at h
    · intro _ h
      simp at h
  | none =>
    have hga : getattr s 2 = .panic := by
      simp [getattr, current_target_attr, target_attr, hv, hp, hd, unwrapAttr]
    have hsa : (setattr s 2 none none none none none none none none none none
        none none).1 = .panic := by
      simp [setattr, current_target_attr, target_attr, hv, hp, hd, unwrapAttr]
    refine ⟨?_, ?_, fun _ => ⟨hga, hsa⟩, ?_⟩
    · simp [hga, hd]
    · simp [hsa, hd]
    · intro h1 _ q data hq hd2
      have hprev : target_attr s (s.version - 1) = .ok (some
          (targetFileAttr data.length)) := by
        have h0 : 0 < s.version - 1 := by omega
        simp [target_attr, h0, hq, hd2]
      have hcur : target_attr s s.version = .ok none := by
        simp [target_attr, hv, hp, hd]
      simp [lookup, hcur, hprev, unwrapAttr]

/-- C1 (counterexample): the claim says the Read result is empty whenever
offset ≥ the snapshot's length, but at a 0-byte snapshot and offset 1 the
slice `data[1..0]` panics instead of returning an empty result. -/
theorem C1_cex :
    read emptyFS 2 0 1 1 = Reply.panic ∧ read emptyFS 2 0 1 1 ≠ Reply.ok [] := by
  decide

/-- C1 (amended): a Read of the Target with version > 0 and a readable
current snapshot returns, for offset ≤ the snapshot's length, exactly the
byte range [offset, min(len, offset + size)): never more than `size` bytes,
never a byte beyond the snapshot, and an empty result when offset equals the
length; for offset strictly beyond the length the slice panics instead of
returning an empty result. -/
theorem C1_read_range (s : VersionFS) (fh offset size : Nat) (p : FsPath)
    (data : List Nat) (hv : 0 < s.version)
    (hp : path_for_version s s.version = some p)
    (hd : s.disk p = some data) :
    (offset ≤ data.length →
      ∃ r, read s 2 fh offset size = .ok r ∧
        r.length = min data.length (offset + size) - offset ∧
        r.length ≤ size ∧
        (∀ i, i < r.length → r[i]? = data[offset + i]?) ∧
        (offset = data.length → r = [])) ∧
    (data.length < offset → read s 2 fh offset size = .panic) := by
  have h1 : min data.length (offset + size) ≤ data.length :=
    Nat.min_le_left _ _
  have h2 : min data.length (offset + size) ≤ offset + size :=
    Nat.min_le_right _ _
  have hread : read s 2 fh offset size =
      if offset ≤ min data.length (offset + size) then
        .ok ((data.take (min data.length (offset + size))).drop offset)
      else .panic := by
    simp [read, hv, hp, hd]
  have hlen : ((data.take (min data.length (offset + size))).drop
      offset).length = min data.length (offset + size) - offset := by
    rw [List.length_drop, List.length_take,
      Nat.min_eq_left h1]
  constructor
  · intro hoff
    have hle : offset ≤ min data.length (offset + size) :=
      le_min hoff (Nat.le_add_right _ _)
    refine ⟨(data.take (min data.length (offset + size))).drop offset,
      by rw [hread, if_pos hle], hlen, ?_, ?_, ?_⟩
    · rw [hlen]
      omega
    · intro i hi
      rw [hlen] at hi
      rw [List.getElem?_drop]
      exact List.getElem?_take_of_lt (by omega)
    · intro he
      refine List.eq_nil_of_length_eq_zero ?_
      rw [hlen]
      omega
  · intro hgt
    rw [hread, if_neg (fun hc => by omega)]

/-- C1 (witness): at `exFS` (2-byte snapshot "hi"), reading 5 bytes from
offset 1 succeeds with at most 5 bytes. -/
theorem C1_read_range_witness :
    ∃ r, read exFS 2 0 1 5 = Reply.ok r ∧ r.length ≤ 5 := by
  obtain ⟨r, hr, -, h3, -, -⟩ := (C1_read_range exFS 0 1 5 path1 [104, 105]
    (by decide) (by decide) (by decide)).1 (by decide)
  exact ⟨r, hr, h3⟩

theorem openOp_version_write (s : VersionFS) (flags : Nat)
    (h : writeIntent flags = true) :
    ((openOp s 2 flags).2).version = s.version + 1 := by
  unfold openOp
  rw [if_pos rfl, h]
  simp only [if_true]
  split
  · rfl
  · split
    · split
      · rfl
      · split
        · rfl
        · rw [osOpen_version, writeDisk_version]
    · rw [osOpen_version, writeDisk_version]

theorem openOp_version_nowrite (s : VersionFS) (flags : Nat)
    (h : writeIntent flags = false) :
    ((openOp s 2 flags).2).version = s.version := by
  unfold openOp
  rw [if_pos rfl, h]
  simp only [Bool.false_eq_true, if_false]
  exact osOpen_version s flags

/-- C2: an Open of the Target with write intent (`O_WRONLY`, `O_RDWR` or
`O_CREAT` set) increments the version counter by exactly 1, an Open without
write intent leaves it unchanged, an Open of any other inode leaves the
whole state unchanged, and no Open ever decreases the counter. -/
theorem C2_open_version (s : VersionFS) (ino flags : Nat) :
    (ino = 2 → writeIntent flags = true →
      ((openOp s ino flags).2).version = s.version + 1) ∧
    (ino = 2 → writeIntent flags = false →
      ((openOp s ino flags).2).version = s.version) ∧
    (ino ≠ 2 → (openOp s ino flags).2 = s) ∧
    s.version ≤ ((openOp s ino flags).2).version := by
  refine ⟨fun h1 h2 => by rw [h1, openOp_version_write s flags h2],
    fun h1 h2 => by rw [h1, openOp_version_nowrite s flags h2],
    fun h => by rw [openOp_other s ino flags h], ?_⟩
  by_cases h1 : ino = 2
  · subst h1
    cases h2 : writeIntent flags
    · rw [openOp_version_nowrite s flags h2]
    · rw [openOp_version_write s flags h2]
      omega
  · rw [openOp_other s ino flags h1]

/-- C2 (witness): at `exFS` (version 1), a write-intent open (`O_WRONLY`)
moves the counter to 2, a read open (flags 0) leaves it at 1, and neither
decreases it. -/
theorem C2_open_version_witness :
    ((openOp exFS 2 1).2).version = exFS.version + 1 ∧
      ((openOp exFS 2 0).2).version = exFS.version :=
  ⟨(C2_open_version exFS 2 1).1 rfl (by decide),
   (C2_open_version exFS 2 0).2.1 rfl (by decide)⟩

/-- C3: a write-intent Open of the Target creates the new version's
snapshot as a byte-identical copy of the immediately preceding version's
snapshot when the new version number exceeds 1 (`0 < s.version`) and
`O_TRUNC` is not requested; otherwise — first version reached, or truncation
requested — the new snapshot is created empty. -/
theorem C3_open_snapshot (s : VersionFS) (flags : Nat) (newp : FsPath)
    (hw : writeIntent flags = true)
    (hp : path_for_version s (s.version + 1) = some newp) :
    (Nat.land flags O_TRUNC = 0 → 0 < s.version →
      ∀ oldp data, path_for_version s s.version = some oldp →
        s.disk oldp = some data →
        ((openOp s 2 flags).2).disk newp = some data) ∧
    ((s.version = 0 ∨ Nat.land flags O_TRUNC ≠ 0) →
      ((openOp s 2 flags).2).disk newp = some []) := by
  constructor
  · intro ht hv oldp data hold hd
    unfold openOp
    rw [if_pos rfl, hw]
    simp only [if_true, path_for_version_set_version, hp, Nat.add_sub_cancel,
      hold]
    rw [if_pos (⟨by omega, ht⟩ :
      s.version + 1 > 1 ∧ Nat.land flags O_TRUNC = 0)]
    simp only [hd]
    rw [osOpen_no_trunc (writeDisk { s with version := s.version + 1 } newp
      data) flags newp data hp (writeDisk_disk_self _ _ _) ht]
    exact writeDisk_disk_self _ _ _
  · intro h
    unfold openOp
    rw [if_pos rfl, hw]
    simp only [if_true, path_for_version_set_version, hp]
    rw [if_neg (fun hc => by
      rcases h with h | h
      · have h1 := hc.1
        omega
      · exact h hc.2)]
    exact osOpen_disk_empty (writeDisk { s with version := s.version + 1 }
      newp []) flags newp hp (writeDisk_disk_self _ _ _)

/-- C3 (witness): at `exFS` (version 1, snapshot "hi"), an `O_WRONLY` open
without truncation copies the 2 bytes into the version-2 snapshot, and an
`O_WRONLY | O_TRUNC` open creates the version-2 snapshot empty. -/
theorem C3_open_snapshot_witness :
    ((openOp exFS 2 1).2).disk path2 = some [104, 105] ∧
      ((openOp exFS 2 513).2).disk path2 = some [] :=
  ⟨(C3_open_snapshot exFS 1 path2 (by decide) (by decide)).1 (by decide)
      (by decide) path1 [104, 105] (by decide) (by decide),
   (C3_open_snapshot exFS 513 path2 (by decide) (by decide)).2
     (Or.inr (by decide))⟩

/-- C10 (witness): at `fallbackFS` the current (version-2) snapshot is
absent: GetAttributes panics while Lookup replies the version-1 record. -/
theorem C10_no_fallback_witness :
    getattr fallbackFS 2 = Reply.panic ∧
      lookup fallbackFS 1 fallbackFS.target = .ok (targetFileAttr 2) :=
  ⟨((C10_no_fallback fallbackFS path2 (by decide) (by decide)).2.2.1
      (by decide)).1,
   (C10_no_fallback fallbackFS path2 (by decide) (by decide)).2.2.2
     (by decide) (by decide) path1 [104, 105] (by decide) (by decide)⟩

/-- C4 (counterexample): the claim says ResolvePath is total over an
arbitrary byte-string display name and never fails, but on the display name
`[0xFF]`, which is not valid UTF-8, `self.target.to_str().unwrap()` panics:
the embedded `path_for_version` returns `none` instead of a path. -/
theorem C4_cex : path_for_version badFS 1 = none := by decide

/-- C4 (amended): whenever the target display name is valid UTF-8,
`path_for_version` is pure and total: it returns exactly the Snapshot Store
directory joined with the file name "{version}.{target-display-name}", the
function of the spec's §4.1 (`resolvePathSpec`). -/
theorem C4_resolve_path (s : VersionFS) (v : Nat)
    (h : utf8Valid s.target = true) :
    path_for_version s v = some (resolvePathSpec s.target_dir s.target v) := by
  simp [path_for_version, resolvePathSpec, h]

/-- C4 (witness): the amended theorem at the concrete state `exFS` and
version 7. -/
theorem C4_resolve_path_witness :
    path_for_version exFS 7 = some (resolvePathSpec [100] [116] 7) :=
  C4_resolve_path exFS 7 (by decide)

/-- C7 (counterexample): the claim says an Open of any inode other than 2
fails with NotFound (`ENOENT`), but the code's catch-all replies `ENOSYS`:
at inode 1 the reply is `ENOSYS`, not `ENOENT`. -/
theorem C7_cex :
    (openOp exFS 1 0).1 = Reply.error ENOSYS ∧
      (openOp exFS 1 0).1 ≠ Reply.error ENOENT := by decide

/-- C7 (amended): every Open request addressed to an inode other than the
Target (inode 2) fails with NotSupported (errno `ENOSYS`), and leaves the
state unchanged. -/
theorem C7_open_other (s : VersionFS) (ino flags : Nat) (h : ino ≠ 2) :
    openOp s ino flags = (.error ENOSYS, s) := by
  simp [openOp, h]

/-- C7 (witness): the amended theorem at the concrete state `exFS`, inode 1. -/
theorem C7_open_other_witness : openOp exFS 1 0 = (.error ENOSYS, exFS) :=
  C7_open_other exFS 1 0 (by decide)

/-- C8 (counterexample): the claim says a CreateNode request on the Target's
display name replies AlreadyExists regardless of any other parameter, but
the code also requires `parent == 1`: with parent 2 and the Target's own
name the reply is `ENOSYS`, not `EEXIST`. -/
theorem C8_cex :
    mknod exFS 2 [116] 0 0 0 = Reply.error ENOSYS ∧
      mknod exFS 2 [116] 0 0 0 ≠ Reply.error EEXIST := by decide

/-- C8 (amended): a CreateNode request whose parent is the virtual root
(inode 1) and whose name equals the Target's display name replies
AlreadyExists (`EEXIST`), regardless of mode, umask and rdev; every other
CreateNode request replies NotSupported (`ENOSYS`). -/
theorem C8_mknod (s : VersionFS) (parent : Nat) (name : List Nat)
    (mode umask rdev : Nat) :
    (parent = 1 → name = s.target →
      mknod s parent name mode umask rdev = .error EEXIST) ∧
    (¬(parent = 1 ∧ name = s.target) →
      mknod s parent name mode umask rdev = .error ENOSYS) := by
  constructor
  · intro h1 h2
    simp [mknod, h1, h2]
  · intro h
    simp only [mknod, if_neg h]

/-- C8 (witness): both branches of the amended theorem at concrete inputs:
parent 1 with the Target's name replies `EEXIST`; parent 1 with the name
"u" (byte 117) replies `ENOSYS`. -/
theorem C8_mknod_witness :
    mknod exFS 1 [116] 7 0 0 = Reply.error EEXIST ∧
      mknod exFS 1 [117] 7 0 0 = Reply.error ENOSYS :=
  ⟨(C8_mknod exFS 1 [116] 7 0 0).1 rfl (by decide),
   (C8_mknod exFS 1 [117] 7 0 0).2 (by decide)⟩

/-- C9: a SetAttributes request, whatever attribute changes it carries and
whatever its inode, mutates no state — the whole state, version counter and
snapshot store included, is returned unchanged — and whenever the Target's
current attribute record computes, the reply carries exactly that record. -/
theorem C9_setattr (s : VersionFS) (ino : Nat)
    (mode uid gid size atime mtime ctime fh crtime chgtime bkuptime flags :
      Option Nat) :
    (setattr s ino mode uid gid size atime mtime ctime fh crtime chgtime
        bkuptime flags).2 = s ∧
    (∀ a, current_target_attr s = .ok (some a) →
      (setattr s ino mode uid gid size atime mtime ctime fh crtime chgtime
        bkuptime flags).1 = .ok a) := by
  refine ⟨rfl, fun a h => ?_⟩
  simp [setattr, h, unwrapAttr]

/-- C9 (witness): at the concrete state `exFS` with a size-change request,
the state is unchanged and the reply is the Target's computed record. -/
theorem C9_setattr_witness :
    (setattr exFS 2 (some 0o644) none none (some 0) none none none none
        none none none none).2 = exFS ∧
      (setattr exFS 2 (some 0o644) none none (some 0) none none none none
        none none none none).1 = .ok (targetFileAttr 2) :=
  ⟨(C9_setattr exFS 2 (some 0o644) none none (some 0) none none none none
      none none none none).1,
   (C9_setattr exFS 2 (some 0o644) none none (some 0) none none none none
      none none none none).2 (targetFileAttr 2) (by decide)⟩

end VFS
